import Mathlib

/-!
Verification of `dumux/material/fluidstate.hh`: the `Dumux::FluidState` CRTP
contract class. The file is a shallow embedding of the class: the default
accessor bodies (each a single `DUNE_THROW(Dune::NotImplemented, msg)`), the
constructor with its `if (0)` conformance-check block, the three capability
enumerators declared in the base, the C++ qualified name lookup that resolves
`Implementation::numPhases` etc. for a CRTP-derived implementation, and the
`asImp_` self-reference casts.
-/

/-- The Dune exception classes relevant to this contract. The accessor bodies
throw `Dune::NotImplemented`; `RangeError` is Dune's out-of-range exception
class, modelled so that "never raises a range error" is statable. -/
inductive DuneExKind where
  | NotImplemented
  | RangeError
deriving DecidableEq, Repr

/-- A Dune exception as produced by `DUNE_THROW(kind, msg)`: the exception
class together with the message string passed to the macro. -/
structure DuneException where
  kind : DuneExKind
  msg : String
deriving DecidableEq, Repr

/-- A phase index as passed to the accessors (C++ `int phaseIdx`). A distinct
wrapper type from `CompIdx` so that argument order (phase index before
component index) is visible in the accessor signatures. -/
structure PhaseIdx where
  val : Int
deriving DecidableEq, Repr

/-- A component index as passed to the accessors (C++ `int compIdx` /
`int componentIdx`). -/
structure CompIdx where
  val : Int
deriving DecidableEq, Repr

/-- The contract class `FluidState<Scalar, Implementation>` itself. Its body
declares enumerators, member functions and the constructor but no data
members, so the embedded type has no fields. -/
structure FluidState (Scalar Implementation : Type)

/-- The three capability enumerators a class may declare: for each of
`numPhases`, `numComponents`, `numSolvents`, either `some v` (declared, with
enumerator value `v`) or `none` (not declared). -/
structure EnumDecls where
  numPhases : Option Int
  numComponents : Option Int
  numSolvents : Option Int
deriving DecidableEq, Repr

/-- The enumerators declared by the contract base itself (source lines 57-64):
`enum { numPhases };`, `enum { numComponents };`, `enum { numSolvents };`.
Each is the first enumerator of its own unnamed enumeration, so each has
value 0. -/
def FluidState.declaredEnums : EnumDecls :=
  ⟨some 0, some 0, some 0⟩

/-- A concrete implementation bound to the contract in the intended CRTP way
(`class Impl : public FluidState<Scalar, Impl>`), described by the capability
enumerators it declares itself (not counting inherited ones). -/
structure CppImpl where
  ownEnums : EnumDecls
deriving DecidableEq, Repr

/-- C++ qualified name lookup of `Implementation::numPhases` for a
CRTP-derived implementation: the name is searched in the implementation's own
declarations first and, when absent there, in its base class `FluidState`,
whose own enumerators (`FluidState.declaredEnums`) are inherited. -/
def CppImpl.lookupNumPhases (impl : CppImpl) : Option Int :=
  impl.ownEnums.numPhases.orElse fun _ => FluidState.declaredEnums.numPhases

/-- C++ qualified name lookup of `Implementation::numComponents`, as in
`CppImpl.lookupNumPhases`. -/
def CppImpl.lookupNumComponents (impl : CppImpl) : Option Int :=
  impl.ownEnums.numComponents.orElse fun _ => FluidState.declaredEnums.numComponents

/-- C++ qualified name lookup of `Implementation::numSolvents`, as in
`CppImpl.lookupNumPhases`. -/
def CppImpl.lookupNumSolvents (impl : CppImpl) : Option Int :=
  impl.ownEnums.numSolvents.orElse fun _ => FluidState.declaredEnums.numSolvents

/-- Whether instantiating the constructor body (source lines 43-53) compiles
for a given implementation: the body references `Implementation::numPhases`,
`Implementation::numComponents` and `Implementation::numSolvents`, so it
compiles exactly when all three qualified lookups succeed. -/
def FluidState.ctorCompiles (impl : CppImpl) : Bool :=
  impl.lookupNumPhases.isSome
    && impl.lookupNumComponents.isSome
    && impl.lookupNumSolvents.isSome

/-- The assignments to the local `int i` inside the constructor's check
block, as observable runtime actions. -/
inductive CtorAction where
  | assignNumPhases
  | assignNumComponents
  | assignNumSolvents
deriving DecidableEq, Repr

/-- Runtime behavior of the constructor (source lines 43-53): the check block
is guarded by `if (0)`; its condition is the integer 0 converted to bool,
i.e. `(0 : Int) ≠ 0`. When taken, the branch performs the three assignments
to the local `i`; the constructor body throws nothing and returns normally.
The result records the executed assignments and the normal return. -/
def FluidState.ctorRun (impl : CppImpl) :
    List CtorAction × Except DuneException Unit :=
  if (0 : Int) ≠ 0 then
    ([CtorAction.assignNumPhases, CtorAction.assignNumComponents,
      CtorAction.assignNumSolvents], Except.ok ())
  else
    ([], Except.ok ())

/-- Default body of `saturation(int phaseIdx)` (source lines 69-70):
`DUNE_THROW(Dune::NotImplemented, "FluidState::saturation()")`. -/
def FluidState.saturation (S : Type) (phaseIdx : PhaseIdx) :
    Except DuneException S :=
  Except.error ⟨DuneExKind.NotImplemented, "FluidState::saturation()"⟩

/-- Default body of `moleFrac(int phaseIdx, int compIdx)` (source lines
75-76). -/
def FluidState.moleFrac (S : Type) (phaseIdx : PhaseIdx) (compIdx : CompIdx) :
    Except DuneException S :=
  Except.error ⟨DuneExKind.NotImplemented, "FluidState::moleFrac()"⟩

/-- Default body of `phaseConcentration(int phaseIdx)` (source lines
84-85). -/
def FluidState.phaseConcentration (S : Type) (phaseIdx : PhaseIdx) :
    Except DuneException S :=
  Except.error ⟨DuneExKind.NotImplemented, "FluidState::phaseConcentration()"⟩

/-- Default body of `concentration(int phaseIdx, int compIdx)` (source lines
93-94). -/
def FluidState.concentration (S : Type) (phaseIdx : PhaseIdx)
    (compIdx : CompIdx) : Except DuneException S :=
  Except.error ⟨DuneExKind.NotImplemented, "FluidState::concentration()"⟩

/-- Default body of `density(int phaseIdx)` (source lines 101-102). -/
def FluidState.density (S : Type) (phaseIdx : PhaseIdx) :
    Except DuneException S :=
  Except.error ⟨DuneExKind.NotImplemented, "FluidState::density()"⟩

/-- Default body of `averageMolarMass(int phaseIdx)` (source lines
112-113). -/
def FluidState.averageMolarMass (S : Type) (phaseIdx : PhaseIdx) :
    Except DuneException S :=
  Except.error ⟨DuneExKind.NotImplemented, "FluidState::averageMolarMass()"⟩

/-- Default body of `fugacity(int componentIdx)` (source lines 122-123). -/
def FluidState.fugacity (S : Type) (componentIdx : CompIdx) :
    Except DuneException S :=
  Except.error ⟨DuneExKind.NotImplemented, "FluidState::fugacity()"⟩

/-- Default body of `phasePressure(int phaseIdx)` (source lines 130-131).
The message string in the source is `"FluidState::totalPressure()"`. -/
def FluidState.phasePressure (S : Type) (phaseIdx : PhaseIdx) :
    Except DuneException S :=
  Except.error ⟨DuneExKind.NotImplemented, "FluidState::totalPressure()"⟩

/-- Default body of `temperature()` (source lines 139-140). -/
def FluidState.temperature (S : Type) : Except DuneException S :=
  Except.error ⟨DuneExKind.NotImplemented, "FluidState::temperature()"⟩

/-- A call of `saturation` as a const method on the implementation object
`s` of state type `σ`: the body is the single throw above and contains no
assignment to any member, so the object passes through unchanged next to the
result. -/
def FluidState.saturationOn (S σ : Type) (s : σ) (p : PhaseIdx) :
    Except DuneException S × σ :=
  (FluidState.saturation S p, s)

/-- A call of `moleFrac` as a const method on the implementation object, as
in `FluidState.saturationOn`. -/
def FluidState.moleFracOn (S σ : Type) (s : σ) (p : PhaseIdx) (c : CompIdx) :
    Except DuneException S × σ :=
  (FluidState.moleFrac S p c, s)

/-- A call of `phaseConcentration` as a const method on the implementation
object. -/
def FluidState.phaseConcentrationOn (S σ : Type) (s : σ) (p : PhaseIdx) :
    Except DuneException S × σ :=
  (FluidState.phaseConcentration S p, s)

/-- A call of `concentration` as a const method on the implementation
object. -/
def FluidState.concentrationOn (S σ : Type) (s : σ) (p : PhaseIdx)
    (c : CompIdx) : Except DuneException S × σ :=
  (FluidState.concentration S p c, s)

/-- A call of `density` as a const method on the implementation object. -/
def FluidState.densityOn (S σ : Type) (s : σ) (p : PhaseIdx) :
    Except DuneException S × σ :=
  (FluidState.density S p, s)

/-- A call of `averageMolarMass` as a const method on the implementation
object. -/
def FluidState.averageMolarMassOn (S σ : Type) (s : σ) (p : PhaseIdx) :
    Except DuneException S × σ :=
  (FluidState.averageMolarMass S p, s)

/-- A call of `fugacity` as a const method on the implementation object. -/
def FluidState.fugacityOn (S σ : Type) (s : σ) (c : CompIdx) :
    Except DuneException S × σ :=
  (FluidState.fugacity S c, s)

/-- A call of `phasePressure` as a const method on the implementation
object. -/
def FluidState.phasePressureOn (S σ : Type) (s : σ) (p : PhaseIdx) :
    Except DuneException S × σ :=
  (FluidState.phasePressure S p, s)

/-- A call of `temperature` as a const method on the implementation
object. -/
def FluidState.temperatureOn (S σ : Type) (s : σ) :
    Except DuneException S × σ :=
  (FluidState.temperature S, s)

/-- `asImp_()` (mutable variant, source lines 143-144): casts `this` to
`Implementation*` and dereferences. Under CRTP the receiver object is the
implementation object, so the cast re-types the same reference: the result is
the receiver itself. -/
def FluidState.asImp (Implementation : Type) (self : Implementation) :
    Implementation :=
  self

/-- `asImp_() const` (const variant, source lines 145-146): same cast,
yielding a const reference to the receiver. -/
def FluidState.asImpConst (Implementation : Type) (self : Implementation) :
    Implementation :=
  self

/-- C1: on the contract's default bodies, every call to any of the nine
accessor operations raises the `Dune::NotImplemented` failure and returns no
value, for every scalar type and every argument. -/
theorem default_accessors_all_raise (S : Type) (p : PhaseIdx) (c : CompIdx) :
    FluidState.saturation S p =
        Except.error ⟨DuneExKind.NotImplemented, "FluidState::saturation()"⟩
    ∧ FluidState.moleFrac S p c =
        Except.error ⟨DuneExKind.NotImplemented, "FluidState::moleFrac()"⟩
    ∧ FluidState.phaseConcentration S p =
        Except.error
          ⟨DuneExKind.NotImplemented, "FluidState::phaseConcentration()"⟩
    ∧ FluidState.concentration S p c =
        Except.error ⟨DuneExKind.NotImplemented, "FluidState::concentration()"⟩
    ∧ FluidState.density S p =
        Except.error ⟨DuneExKind.NotImplemented, "FluidState::density()"⟩
    ∧ FluidState.averageMolarMass S p =
        Except.error
          ⟨DuneExKind.NotImplemented, "FluidState::averageMolarMass()"⟩
    ∧ FluidState.fugacity S c =
        Except.error ⟨DuneExKind.NotImplemented, "FluidState::fugacity()"⟩
    ∧ FluidState.phasePressure S p =
        Except.error ⟨DuneExKind.NotImplemented, "FluidState::totalPressure()"⟩
    ∧ FluidState.temperature S =
        Except.error ⟨DuneExKind.NotImplemented, "FluidState::temperature()"⟩ :=
  ⟨rfl, rfl, rfl, rfl, rfl, rfl, rfl, rfl, rfl⟩

/-- C2 (failing evaluation): a CRTP implementation that declares none of the
three required capability constants nevertheless compiles when bound to the
contract: the constructor's references `Implementation::numPhases`,
`Implementation::numComponents`, `Implementation::numSolvents` all resolve
through inheritance to the enumerators the contract base itself declares, so
the conformance check cannot fail and no compile error is produced. -/
theorem ctor_compiles_without_required_enums :
    FluidState.ctorCompiles ⟨⟨none, none, none⟩⟩ = true := by
  rfl

/-- C3 (failing evaluation): the `Dune::NotImplemented` signal raised by
`phasePressure` at phase index 0 carries the message
`"FluidState::totalPressure()"`, not the name of the operation
`phasePressure` that was called. -/
theorem phasePressure_signal_names_totalPressure :
    FluidState.phasePressure Unit ⟨0⟩ =
      Except.error ⟨DuneExKind.NotImplemented, "FluidState::totalPressure()"⟩
    ∧ (DuneException.msg
        ⟨DuneExKind.NotImplemented, "FluidState::totalPressure()"⟩
        = "FluidState::phasePressure()") = False := by
  exact ⟨rfl, by simp⟩

/-- C4: the constructor's conformance check has no runtime effect: for every
implementation, running the constructor executes no assignment of the check
block (the `if (0)` branch is unreachable) and the constructor returns
normally without raising. -/
theorem ctor_has_no_runtime_effect (impl : CppImpl) :
    FluidState.ctorRun impl = ([], Except.ok ()) := by
  simp [FluidState.ctorRun]

/-- C5: the default accessor bodies perform no bounds checking: for any two
phase indices and any two component indices (in range or not), each accessor
returns the identical result, that result is a `Dune::NotImplemented` failure,
and it is never a `RangeError`. -/
theorem accessors_do_no_bounds_checking (S : Type) (p q : PhaseIdx)
    (c d : CompIdx) :
    (FluidState.saturation S p = FluidState.saturation S q
      ∧ ∃ m, FluidState.saturation S p =
          Except.error ⟨DuneExKind.NotImplemented, m⟩)
    ∧ (FluidState.moleFrac S p c = FluidState.moleFrac S q d
      ∧ ∃ m, FluidState.moleFrac S p c =
          Except.error ⟨DuneExKind.NotImplemented, m⟩)
    ∧ (FluidState.phaseConcentration S p = FluidState.phaseConcentration S q
      ∧ ∃ m, FluidState.phaseConcentration S p =
          Except.error ⟨DuneExKind.NotImplemented, m⟩)
    ∧ (FluidState.concentration S p c = FluidState.concentration S q d
      ∧ ∃ m, FluidState.concentration S p c =
          Except.error ⟨DuneExKind.NotImplemented, m⟩)
    ∧ (FluidState.density S p = FluidState.density S q
      ∧ ∃ m, FluidState.density S p =
          Except.error ⟨DuneExKind.NotImplemented, m⟩)
    ∧ (FluidState.averageMolarMass S p = FluidState.averageMolarMass S q
      ∧ ∃ m, FluidState.averageMolarMass S p =
          Except.error ⟨DuneExKind.NotImplemented, m⟩)
    ∧ (FluidState.fugacity S c = FluidState.fugacity S d
      ∧ ∃ m, FluidState.fugacity S c =
          Except.error ⟨DuneExKind.NotImplemented, m⟩)
    ∧ (FluidState.phasePressure S p = FluidState.phasePressure S q
      ∧ ∃ m, FluidState.phasePressure S p =
          Except.error ⟨DuneExKind.NotImplemented, m⟩) :=
  ⟨⟨rfl, _, rfl⟩, ⟨rfl, _, rfl⟩, ⟨rfl, _, rfl⟩, ⟨rfl, _, rfl⟩,
   ⟨rfl, _, rfl⟩, ⟨rfl, _, rfl⟩, ⟨rfl, _, rfl⟩, ⟨rfl, _, rfl⟩⟩

/-- C6: the contract is stateless and read-only: the `FluidState` type
declares no data fields (any two values of it are equal), and every accessor
call on an implementation object leaves the object state unchanged. -/
theorem contract_is_stateless (S σ : Type) (a b : FluidState S σ) (s : σ)
    (p : PhaseIdx) (c : CompIdx) :
    a = b
    ∧ (FluidState.saturationOn S σ s p).2 = s
    ∧ (FluidState.moleFracOn S σ s p c).2 = s
    ∧ (FluidState.phaseConcentrationOn S σ s p).2 = s
    ∧ (FluidState.concentrationOn S σ s p c).2 = s
    ∧ (FluidState.densityOn S σ s p).2 = s
    ∧ (FluidState.averageMolarMassOn S σ s p).2 = s
    ∧ (FluidState.fugacityOn S σ s c).2 = s
    ∧ (FluidState.phasePressureOn S σ s p).2 = s
    ∧ (FluidState.temperatureOn S σ s).2 = s := by
  cases a
  cases b
  exact ⟨rfl, rfl, rfl, rfl, rfl, rfl, rfl, rfl, rfl, rfl⟩

/-- C7: the protected self-reference operation, in both its mutable and const
variants, returns the very receiver object it was called on, re-typed as the
concrete implementing type. -/
theorem asImp_returns_receiver (Implementation : Type)
    (self : Implementation) :
    FluidState.asImp Implementation self = self
    ∧ FluidState.asImpConst Implementation self = self :=
  ⟨rfl, rfl⟩

/-- C8: the accessor signature surface matches the table: each accessor
yields the scalar type `S` in its value slot; `moleFrac` and `concentration`
take the phase index before the component index; `saturation`,
`phaseConcentration`, `density`, `averageMolarMass` and `phasePressure` take
exactly one phase index; `fugacity` takes exactly one component index;
`temperature` takes no index argument. Each conjunct type-checks only because
the accessor has exactly the ascribed signature. -/
theorem accessor_signature_surface (S : Type) :
    (FluidState.saturation S : PhaseIdx → Except DuneException S)
        = FluidState.saturation S
    ∧ (FluidState.moleFrac S : PhaseIdx → CompIdx → Except DuneException S)
        = FluidState.moleFrac S
    ∧ (FluidState.phaseConcentration S : PhaseIdx → Except DuneException S)
        = FluidState.phaseConcentration S
    ∧ (FluidState.concentration S :
          PhaseIdx → CompIdx → Except DuneException S)
        = FluidState.concentration S
    ∧ (FluidState.density S : PhaseIdx → Except DuneException S)
        = FluidState.density S
    ∧ (FluidState.averageMolarMass S : PhaseIdx → Except DuneException S)
        = FluidState.averageMolarMass S
    ∧ (FluidState.fugacity S : CompIdx → Except DuneException S)
        = FluidState.fugacity S
    ∧ (FluidState.phasePressure S : PhaseIdx → Except DuneException S)
        = FluidState.phasePressure S
    ∧ (FluidState.temperature S : Except DuneException S)
        = FluidState.temperature S :=
  ⟨rfl, rfl, rfl, rfl, rfl, rfl, rfl, rfl, rfl⟩

/-- C9: the contract base itself declares the three capability constants as
enumerators, each with value 0, and a CRTP implementation that declares none
of them still exposes all three names through inheritance, each resolving to
value 0. -/
theorem base_declares_capability_enums :
    FluidState.declaredEnums = ⟨some 0, some 0, some 0⟩
    ∧ CppImpl.lookupNumPhases ⟨⟨none, none, none⟩⟩ = some 0
    ∧ CppImpl.lookupNumComponents ⟨⟨none, none, none⟩⟩ = some 0
    ∧ CppImpl.lookupNumSolvents ⟨⟨none, none, none⟩⟩ = some 0 :=
  ⟨rfl, rfl, rfl, rfl⟩

/-- C10: every operation of the contract terminates on every input: the
constructor, each of the nine default accessors and both self-reference
variants are total functions evaluating to an explicit error-or-value
result. -/
theorem all_operations_terminate (S σ : Type) (impl : CppImpl) (s : σ)
    (p : PhaseIdx) (c : CompIdx) :
    FluidState.ctorRun impl = ([], Except.ok ())
    ∧ FluidState.saturation S p =
        Except.error ⟨DuneExKind.NotImplemented, "FluidState::saturation()"⟩
    ∧ FluidState.moleFrac S p c =
        Except.error ⟨DuneExKind.NotImplemented, "FluidState::moleFrac()"⟩
    ∧ FluidState.phaseConcentration S p =
        Except.error
          ⟨DuneExKind.NotImplemented, "FluidState::phaseConcentration()"⟩
    ∧ FluidState.concentration S p c =
        Except.error ⟨DuneExKind.NotImplemented, "FluidState::concentration()"⟩
    ∧ FluidState.density S p =
        Except.error ⟨DuneExKind.NotImplemented, "FluidState::density()"⟩
    ∧ FluidState.averageMolarMass S p =
        Except.error
          ⟨DuneExKind.NotImplemented, "FluidState::averageMolarMass()"⟩
    ∧ FluidState.fugacity S c =
        Except.error ⟨DuneExKind.NotImplemented, "FluidState::fugacity()"⟩
    ∧ FluidState.phasePressure S p =
        Except.error ⟨DuneExKind.NotImplemented, "FluidState::totalPressure()"⟩
    ∧ FluidState.temperature S =
        Except.error ⟨DuneExKind.NotImplemented, "FluidState::temperature()"⟩
    ∧ FluidState.asImp σ s = s
    ∧ FluidState.asImpConst σ s = s := by
  refine ⟨?_, rfl, rfl, rfl, rfl, rfl, rfl, rfl, rfl, rfl, rfl, rfl⟩
  simp [FluidState.ctorRun]
